import Mathlib

/-!
Verification of the exabgp announce-file monitor
(`src/examples/exabgp/monitor.py`, SUNET/sarimner-frontend).

Lines of the announcement file are modelled as lists of characters
(`Line := List Char`); Python `str.startswith` becomes `List.isPrefixOf`
and slicing `line[9:]` becomes `List.drop 9`.  Wall-clock times and the
sampled values of `random.random()` are rationals passed in explicitly.
The logger is ignored; the observable output is the list of lines written
to `sys.stdout`.
-/

/-- A line of the announce file, as the character sequence Python sees. -/
abbrev Line := List Char

/-- The literal prefix `announce ` (keyword plus one space). -/
def annKw : Line := ['a', 'n', 'n', 'o', 'u', 'n', 'c', 'e', ' ']

/-- The literal prefix `withdraw ` (keyword plus one space). -/
def wdKw : Line := ['w', 'i', 't', 'h', 'd', 'r', 'a', 'w', ' ']

/-- A line is kept by `reload` iff it starts with `announce ` or `withdraw `
(monitor.py line 149). -/
def keepLine (l : Line) : Bool := annKw.isPrefixOf l || wdKw.isPrefixOf l

/-- The filtering loop of `InstanceDir.reload` (monitor.py lines 147-152):
build `new` by appending each line that starts with `announce ` or
`withdraw `, in file order; every other line is only logged. -/
def reloadAccept : List Line → List Line
  | [] => []
  | l :: rest => if keepLine l then l :: reloadAccept rest else reloadAccept rest

/-- State of one `InstanceDir` object: `contents` is `self._contents`
(`none` is Python `None`, the never-successfully-read initial state),
`timeoutTs` is `self._timeout_ts` and `timeout` is `self._timeout`. -/
structure InstanceState where
  contents : Option (List Line)
  timeoutTs : ℚ
  timeout : ℚ
  deriving DecidableEq, Repr

/-- `InstanceDir.reload` (monitor.py lines 137-175) acting on explicit state.
The argument `file` is the result of opening and reading the announce file:
`none` when an `IOError` is raised, `some ls` with the file lines otherwise.
Returns the new state, the lines written to stdout, and Python's return
value (`some true` = updated, `some false` = unchanged, `none` = error). -/
def reload (file : Option (List Line)) (st : InstanceState) :
    InstanceState × List Line × Option Bool :=
  match file with
  | none => (st, [], none)
  | some ls =>
    let new := reloadAccept ls
    if some new = st.contents then
      (st, [], some false)
    else
      ({ st with contents := some new }, new, some true)

/-- The loop body of `InstanceDir.withdraw` (monitor.py lines 185-191):
for each line starting with `announce `, emit `withdraw ` plus the rest of
the line (`line[9:]`) and collect it into the new contents. -/
def withdrawLines : List Line → List Line
  | [] => []
  | l :: rest =>
    if annKw.isPrefixOf l then (wdKw ++ l.drop 9) :: withdrawLines rest
    else withdrawLines rest

/-- `InstanceDir.withdraw` (monitor.py lines 177-193).  Iterating
`self._contents` when it is still `None` raises `TypeError` in Python;
that crash is modelled as result `none`.  On success the result carries
the new state and the lines written to stdout. -/
def withdraw (st : InstanceState) : Option (InstanceState × List Line) :=
  match st.contents with
  | none => none
  | some ls =>
    let new := withdrawLines ls
    some ({ st with contents := some new }, new)

/-- `InstanceDir.poll` (monitor.py lines 195-211).  `jitter` is the value
sampled from `random.random()`.  The third component records whether
`reload` ran and, if so, what it returned. -/
def poll (now jitter : ℚ) (file : Option (List Line)) (st : InstanceState) :
    InstanceState × List Line × Option (Option Bool) :=
  if st.timeoutTs < now then
    let inc := st.timeout + jitter - 1/2
    let st1 := { st with timeoutTs := now + inc }
    let r := reload file st1
    (r.1, r.2.1, some r.2.2)
  else
    (st, [], none)

/-- The observable state of the announce file of one directory:
absent (`os.path.isfile` false), present but unreadable
(`open`/`readlines` raises `IOError`), or readable with the given lines. -/
inductive FileState where
  | absent : FileState
  | unreadable : FileState
  | readable : List Line → FileState
  deriving DecidableEq

/-- `os.path.isfile` on the announce path. -/
def FileState.isFile : FileState → Bool
  | .absent => false
  | _ => true

/-- The value the `try` block of `reload` obtains: `none` on `IOError`. -/
def FileState.readLines : FileState → Option (List Line)
  | .readable ls => some ls
  | _ => none

/-- The filesystem as the engine observes it: which paths are directories,
and the state of each directory's `announce` file. -/
structure FS where
  isDir : String → Bool
  announce : String → FileState

/-- The state constructed by `InstanceDir.__init__` before the optional
initial reload (monitor.py lines 120-127): `_contents = None`,
`_timeout_ts = now + timeout + fuzz * 5` with `fuzz` the sampled
`random.random()`. -/
def initialState (now timeout fuzz : ℚ) : InstanceState :=
  { contents := none, timeoutTs := now + timeout + fuzz * 5, timeout := timeout }

/-- `InstanceDir.__init__` (monitor.py lines 120-129): start from
`initialState` and, if `os.path.isfile(self.announce_fn)`, run the initial
`reload`.  Returns the constructed instance and the stdout lines it wrote. -/
def initInstance (fs : FS) (dir : String) (now timeout fuzz : ℚ) :
    InstanceState × List Line :=
  let st0 := initialState now timeout fuzz
  if (fs.announce dir).isFile then
    let r := reload (fs.announce dir).readLines st0
    (r.1, r.2.1)
  else
    (st0, [])

/-- The engine's `dirs` dictionary: an association list from directory
path to instance state, with Python dict update semantics. -/
structure EngineState where
  dirs : List (String × InstanceState)
  deriving DecidableEq

/-- `dirs[k] = v`: replace the binding in place, or add it. -/
def dictInsert (d : List (String × InstanceState)) (k : String) (v : InstanceState) :
    List (String × InstanceState) :=
  match d with
  | [] => [(k, v)]
  | (k0, v0) :: rest =>
    if k0 = k then (k, v) :: rest else (k0, v0) :: dictInsert rest k v

/-- `dirs.get(k)` / `k in dirs`. -/
def dictGet (d : List (String × InstanceState)) (k : String) : Option InstanceState :=
  match d with
  | [] => none
  | (k0, v0) :: rest => if k0 = k then some v0 else dictGet rest k

/-- `dirs.pop(k)`: the dictionary without the binding for `k`. -/
def dictPop (d : List (String × InstanceState)) (k : String) :
    List (String × InstanceState) :=
  match d with
  | [] => []
  | (k0, v0) :: rest => if k0 = k then rest else (k0, v0) :: dictPop rest k

/-- Outcome of handling one inotify event inside `main`'s dispatch loop
(monitor.py lines 243-271): the loop continues with a new engine state
having written some stdout lines; or `main` executes `return False`,
ending the loop (after which `__main__` calls `sys.exit(1)`); or an
uncaught Python exception crashes the process. -/
inductive StepOutcome where
  | cont : EngineState → List Line → StepOutcome
  | stop : EngineState → List Line → StepOutcome
  | crash : StepOutcome
  deriving DecidableEq

/-- Whether the dispatch loop keeps running after this outcome. -/
def StepOutcome.continues : StepOutcome → Bool
  | .cont _ _ => true
  | _ => false

/-- The exit status `__main__` (monitor.py lines 279-284) derives from a
Boolean return value of `main`: `sys.exit(0)` for `True`, `sys.exit(1)`
for `False`. -/
def exitStatus (res : Bool) : Nat := if res then 0 else 1

/-- One iteration of `main`'s event dispatch (monitor.py lines 243-271)
for a non-`None` event `(path, filename)`.  `timeout` is `args.timeout`;
`spread` and `fuzz` are the two `random.random()` samples drawn if a new
`InstanceDir` is constructed; `now` is `time.time()` at that moment. -/
def handleEvent (fs : FS) (monitorDir : String) (now timeout spread fuzz : ℚ)
    (st : EngineState) (path filename : String) : StepOutcome :=
  if path = monitorDir then
    let instanceDir := path ++ "/" ++ filename
    if fs.isDir instanceDir then
      let instTimeout := timeout + spread * 5 - 5/2
      let r := initInstance fs instanceDir now instTimeout fuzz
      .cont ⟨dictInsert st.dirs instanceDir r.1⟩ r.2
    else
      match dictGet st.dirs instanceDir with
      | some inst =>
        match withdraw inst with
        | some (_, out) => .cont ⟨dictPop st.dirs instanceDir⟩ out
        | none => .crash
      | none => .cont st []
  else if filename = "announce" then
    match dictGet st.dirs path with
    | none => .stop st []
    | some inst =>
      if (fs.announce path).isFile then
        let r := reload (fs.announce path).readLines inst
        .cont ⟨dictInsert st.dirs path r.1⟩ r.2.1
      else
        match withdraw inst with
        | some (inst1, out) => .cont ⟨dictInsert st.dirs path inst1⟩ out
        | none => .crash
  else
    .cont st []

/-- Sample line `announce A\n` from the spec's Scenario B. -/
def lineAnnA : Line := "announce A\n".toList

/-- Sample line `withdraw B\n` from the spec's Scenario B. -/
def lineWdB : Line := "withdraw B\n".toList

/-- Sample line `withdraw A\n`, the expected Scenario B output. -/
def lineWdA : Line := "withdraw A\n".toList

/-- Sample rejected line. -/
def lineGarbage : Line := "garbage\n".toList

theorem reloadAccept_eq_filter (ls : List Line) :
    reloadAccept ls = ls.filter keepLine := by
  induction ls with
  | nil => rfl
  | cons l rest ih =>
    by_cases h : keepLine l <;> simp [reloadAccept, List.filter_cons, h, ih]

theorem withdrawLines_eq_map_filter (ls : List Line) :
    withdrawLines ls =
      (ls.filter (fun l => annKw.isPrefixOf l)).map (fun l => wdKw ++ l.drop 9) := by
  induction ls with
  | nil => rfl
  | cons l rest ih =>
    by_cases h : annKw.isPrefixOf l <;>
      simp [withdrawLines, List.filter_cons, h, ih]

theorem ann_not_prefix_of_wd (s : List Char) :
    annKw.isPrefixOf (wdKw ++ s) = false := by
  simp [annKw, wdKw, List.isPrefixOf]

theorem annKw_prefix_decomp (l : Line) (h : annKw.isPrefixOf l = true) :
    l = annKw ++ l.drop 9 := by
  rw [List.isPrefixOf_iff_prefix] at h
  obtain ⟨t, rfl⟩ := h
  have h9 : annKw.length = 9 := by decide
  rw [← h9, List.drop_left]

theorem wd_prefix_not_ann_prefix (l : Line) (h : wdKw.isPrefixOf l = true) :
    annKw.isPrefixOf l = false := by
  cases l with
  | nil => simp [wdKw, List.isPrefixOf] at h
  | cons c rest =>
    simp [wdKw, List.isPrefixOf] at h
    obtain ⟨rfl, -⟩ := h
    simp [annKw, List.isPrefixOf]

theorem withdrawLines_withdrawLines (ls : List Line) :
    withdrawLines (withdrawLines ls) = [] := by
  induction ls with
  | nil => rfl
  | cons l rest ih =>
    by_cases h : annKw.isPrefixOf l <;>
      simp [withdrawLines, h, ann_not_prefix_of_wd, ih]

theorem mem_withdrawLines_starts_wd (ls : List Line) (l : Line)
    (h : l ∈ withdrawLines ls) : annKw.isPrefixOf l = false := by
  rw [withdrawLines_eq_map_filter] at h
  obtain ⟨a, _, rfl⟩ := List.mem_map.mp h
  exact ann_not_prefix_of_wd _

theorem dictGet_dictInsert (d : List (String × InstanceState))
    (k : String) (v : InstanceState) :
    dictGet (dictInsert d k v) k = some v := by
  induction d with
  | nil => simp [dictInsert, dictGet]
  | cons p rest ih =>
    by_cases h : p.1 = k <;> simp [dictInsert, dictGet, h, ih]

/-- Claim C7: if reading the announcement file fails with an I/O failure,
`reload` returns the distinct error result (Python `None`), leaves
`accepted_lines` unchanged, and emits nothing to the output stream. -/
theorem c7_reload_io_error (st : InstanceState) :
    reload none st = (st, [], none) := rfl

/-- Claim C5: the sequence accepted by `reload` is exactly the lines of the
file that start with `announce ` or `withdraw `, kept in original order as a
sublist (hence no reordering and no deduplication); the lines written to the
output stream are either nothing or exactly that filtered sequence, and a
line failing the filter is never written. -/
theorem c5_reload_filtering (st : InstanceState) (ls : List Line) :
    reloadAccept ls = ls.filter keepLine ∧
    (reloadAccept ls).Sublist ls ∧
    ((reload (some ls) st).2.1 = [] ∨ (reload (some ls) st).2.1 = reloadAccept ls) ∧
    (∀ l, keepLine l = false → l ∉ (reload (some ls) st).2.1) := by
  refine ⟨reloadAccept_eq_filter ls, ?_, ?_, ?_⟩
  · rw [reloadAccept_eq_filter]; exact List.filter_sublist ls
  · by_cases h : some (reloadAccept ls) = st.contents <;> simp [reload, h]
  · intro l hl hmem
    have hout : (reload (some ls) st).2.1 = [] ∨
        (reload (some ls) st).2.1 = reloadAccept ls := by
      by_cases h : some (reloadAccept ls) = st.contents <;> simp [reload, h]
    rcases hout with h | h
    · rw [h] at hmem; exact absurd hmem (List.not_mem_nil l)
    · rw [h, reloadAccept_eq_filter] at hmem
      exact absurd (List.of_mem_filter hmem) (by simp [hl])

/-- Claim C5 witness: concretely, reloading `["announce A\n", "garbage\n"]`
never writes the garbage line. -/
theorem c5_reload_filtering_witness :
    lineGarbage ∉ (reload (some [lineAnnA, lineGarbage]) ⟨none, 0, 60⟩).2.1 :=
  (c5_reload_filtering ⟨none, 0, 60⟩ [lineAnnA, lineGarbage]).2.2.2
    lineGarbage (by decide)

/-- Claim C4: for any value of `accepted_lines`, `withdraw` emits exactly one
withdrawal line per line beginning with `announce ` (a line beginning with
`withdraw ` never begins with `announce `, so it yields none), in the
original order, each emitted line being `withdraw ` followed by the source
line with its leading nine characters `announce ` removed — and every such
source line is byte-identical to `announce ` followed by that remainder; in
particular from `["announce A\n", "withdraw B\n"]` it emits exactly
`["withdraw A\n"]`. -/
theorem c4_withdraw_emission (ts tm : ℚ) (ls : List Line) :
    withdraw ⟨some ls, ts, tm⟩ =
      some (⟨some (withdrawLines ls), ts, tm⟩, withdrawLines ls) ∧
    withdrawLines ls =
      (ls.filter (fun l => annKw.isPrefixOf l)).map (fun l => wdKw ++ l.drop 9) ∧
    (∀ l, l ∈ ls → annKw.isPrefixOf l = true → l = annKw ++ l.drop 9) ∧
    (∀ l, l ∈ ls → wdKw.isPrefixOf l = true → annKw.isPrefixOf l = false) ∧
    withdrawLines [lineAnnA, lineWdB] = [lineWdA] := by
  refine ⟨rfl, withdrawLines_eq_map_filter ls, ?_, ?_, by decide⟩
  · intro l _ h
    exact annKw_prefix_decomp l h
  · intro l _ h
    exact wd_prefix_not_ann_prefix l h

/-- Claim C4 witness: the Scenario B line `announce A\n` decomposes as
`announce ` followed by its remainder, as the theorem asserts for members
of the accepted list. -/
theorem c4_withdraw_emission_witness :
    lineAnnA = annKw ++ lineAnnA.drop 9 :=
  (c4_withdraw_emission 0 60 [lineAnnA, lineWdB]).2.2.1
    lineAnnA (by decide) (by decide)

/-- Claim C6: when the file is readable, `reload` compares the filtered
sequence with `accepted_lines`: if equal it returns unchanged (`False`) with
no output and no state change; if different it emits the whole new sequence
in file order, replaces `accepted_lines` with it and returns updated
(`True`) — in particular an empty new sequence against a non-empty (or
unset) previous state emits the empty batch yet still returns updated. -/
theorem c6_reload_change_detection (st : InstanceState) (ls : List Line) :
    (st.contents = some (reloadAccept ls) →
      reload (some ls) st = (st, [], some false)) ∧
    (st.contents ≠ some (reloadAccept ls) →
      reload (some ls) st =
        ({ st with contents := some (reloadAccept ls) }, reloadAccept ls, some true)) := by
  constructor
  · intro h
    simp [reload, h]
  · intro h
    have h' : ¬ some (reloadAccept ls) = st.contents := fun hc => h hc.symm
    simp [reload, h']

/-- Claim C6 witness: Scenario C — the file is emptied while
`accepted_lines = ["announce A\n"]`; `reload` emits nothing, sets
`accepted_lines` to the empty sequence and returns updated. -/
theorem c6_reload_change_detection_witness :
    reload (some []) ⟨some [lineAnnA], 0, 60⟩ =
      (⟨some [], 0, 60⟩, [], some true) :=
  (c6_reload_change_detection ⟨some [lineAnnA], 0, 60⟩ []).2 (by decide)

/-- Claim C8: calling `withdraw` twice in a row with no reload in between
emits nothing the second time: after any successful first call the second
call succeeds with empty output (and records the empty list as contents),
because every line the first call stored begins with `withdraw `, not
`announce `. -/
theorem c8_withdraw_idempotent (st st1 : InstanceState) (out1 : List Line)
    (h : withdraw st = some (st1, out1)) :
    withdraw st1 = some ({ st1 with contents := some [] }, []) ∧
    (∀ l, l ∈ out1 → annKw.isPrefixOf l = false) := by
  unfold withdraw at h
  cases hc : st.contents with
  | none => rw [hc] at h; exact absurd h (by simp)
  | some ls =>
    rw [hc] at h
    simp only [Option.some.injEq, Prod.mk.injEq] at h
    obtain ⟨h1, h2⟩ := h
    subst h1; subst h2
    constructor
    · simp [withdraw, withdrawLines_withdrawLines]
    · intro l hl
      exact mem_withdrawLines_starts_wd ls l hl

/-- Claim C8 witness: after withdrawing from accepted lines
`["announce A\n", "withdraw B\n"]` (which stores `["withdraw A\n"]`), a
second withdraw emits nothing. -/
theorem c8_withdraw_idempotent_witness :
    withdraw ⟨some [lineWdA], 0, 60⟩ = some (⟨some [], 0, 60⟩, []) :=
  (c8_withdraw_idempotent ⟨some [lineAnnA, lineWdB], 0, 60⟩
    ⟨some [lineWdA], 0, 60⟩ [lineWdA] (by decide)).1

/-- Claim C9: for `now` strictly past the deadline, `poll` recomputes the
deadline to `now + (timeout + jitter - 1/2)` and then has exactly the same
effect as a direct `reload`: the same resulting `accepted_lines`, the same
output-stream lines, and it forwards the same reload return value; for
`now` not past the deadline, `poll` changes no state and emits nothing. -/
theorem c9_poll_refines_reload (st : InstanceState) (now jitter : ℚ)
    (file : Option (List Line)) :
    (st.timeoutTs < now →
      (poll now jitter file st).1.contents = (reload file st).1.contents ∧
      (poll now jitter file st).2.1 = (reload file st).2.1 ∧
      (poll now jitter file st).2.2 = some (reload file st).2.2 ∧
      (poll now jitter file st).1.timeoutTs = now + (st.timeout + jitter - 1/2)) ∧
    (¬ st.timeoutTs < now → poll now jitter file st = (st, [], none)) := by
  constructor
  · intro h
    cases file with
    | none => simp [poll, reload, h]
    | some ls =>
      by_cases hc : some (reloadAccept ls) = st.contents <;>
        simp [poll, reload, h, hc]
  · intro h
    simp [poll, h]

/-- Claim C9 witness: a concrete instance past its deadline whose file
changed without notification; `poll` applies exactly the `reload` effect. -/
theorem c9_poll_refines_reload_witness :
    (poll 100 0 (some [lineAnnA]) ⟨some [], 0, 60⟩).1.contents =
      (reload (some [lineAnnA]) ⟨some [], 0, 60⟩).1.contents ∧
    (poll 100 0 (some [lineAnnA]) ⟨some [], 0, 60⟩).2.1 =
      (reload (some [lineAnnA]) ⟨some [], 0, 60⟩).2.1 :=
  ⟨((c9_poll_refines_reload ⟨some [], 0, 60⟩ 100 0 (some [lineAnnA])).1
      (by norm_num)).1,
   ((c9_poll_refines_reload ⟨some [], 0, 60⟩ 100 0 (some [lineAnnA])).1
      (by norm_num)).2.1⟩

/-- Claim C10: for an instance constructed over a directory whose announce
file exists but yields zero accepted lines, construction runs the initial
`reload`, which returns updated (`True`), emits nothing, and sets
`accepted_lines` to the empty sequence — the unset initial contents
(`None`) compare as different from the empty list. -/
theorem c10_first_load_empty (now timeout fuzz : ℚ) (ls : List Line)
    (h : reloadAccept ls = []) :
    reload (some ls) (initialState now timeout fuzz) =
      ({ initialState now timeout fuzz with contents := some [] }, [], some true) ∧
    initInstance ⟨fun _ => true, fun _ => .readable ls⟩ "d" now timeout fuzz =
      ({ initialState now timeout fuzz with contents := some [] }, []) := by
  have h2 : reload (some ls) (initialState now timeout fuzz) =
      ({ initialState now timeout fuzz with contents := some [] }, [], some true) := by
    simp [reload, h, initialState]
  refine ⟨h2, ?_⟩
  simp [initInstance, FileState.isFile, FileState.readLines, h2]

/-- Claim C10 witness: a file holding only a garbage line filters to the
empty sequence, and the initial reload reports updated with empty
contents and no output. -/
theorem c10_first_load_empty_witness :
    reload (some [lineGarbage]) (initialState 0 60 0) =
      ({ initialState 0 60 0 with contents := some [] }, [], some true) :=
  (c10_first_load_empty 0 60 0 [lineGarbage] (by decide)).1

/-- Claim C2, evaluated at the failing input: an instance whose announce
file never existed still has `contents = None`; `withdraw` on it is the
Python `TypeError` crash (modelled as `none`), and the directory-removal
event that performs the mandatory withdraw crashes the dispatch loop
instead of completing. -/
theorem c2_withdraw_none_crashes :
    withdraw ⟨none, 0, 60⟩ = none ∧
    handleEvent ⟨fun _ => false, fun _ => .absent⟩ "/m" 0 60 0 0
      ⟨[("/m/x", ⟨none, 0, 60⟩)]⟩ "/m" "x" = .crash := by
  exact ⟨rfl, rfl⟩

/-- Claim C1 counterexample: a file-level event for a file named `announce`
whose parent directory is not in the mapping does not let the engine
continue: `main` executes `return False`, so the dispatch loop stops and
`__main__` exits with status 1 — refuting the claim that such an event
never causes the dispatch loop to stop. -/
theorem c1_untracked_announce_counterexample :
    handleEvent ⟨fun _ => false, fun _ => .absent⟩ "/m" 0 60 0 0
      ⟨[]⟩ "/m/x" "announce" = .stop ⟨[]⟩ [] ∧
    StepOutcome.continues (handleEvent ⟨fun _ => false, fun _ => .absent⟩
      "/m" 0 60 0 0 ⟨[]⟩ "/m/x" "announce") = false ∧
    exitStatus false = 1 :=
  ⟨rfl, rfl, rfl⟩

/-- Claim C1 (amended): for every file-level event concerning a file named
`announce` whose parent directory is neither the monitored root nor in the
engine's directory-to-Instance mapping, the engine logs the anomaly, drops
the event without mutating state or emitting output, and `main` returns
`False`: the dispatch loop stops and the process exits with status 1. -/
theorem c1_untracked_announce_stops (fs : FS) (monitorDir : String)
    (now timeout spread fuzz : ℚ) (st : EngineState) (path : String)
    (hp : path ≠ monitorDir) (hd : dictGet st.dirs path = none) :
    handleEvent fs monitorDir now timeout spread fuzz st path "announce" =
      .stop st [] ∧
    exitStatus false = 1 := by
  refine ⟨?_, rfl⟩
  simp [handleEvent, hp, hd]

/-- Claim C1 witness: a concrete engine tracking one directory receives an
`announce` event for a different, untracked directory; main stops. -/
theorem c1_untracked_announce_stops_witness :
    handleEvent ⟨fun _ => true, fun _ => .absent⟩ "/m" 0 60 0 0
      ⟨[("/m/y", ⟨none, 0, 60⟩)]⟩ "/m/x" "announce" =
      .stop ⟨[("/m/y", ⟨none, 0, 60⟩)]⟩ [] ∧
    exitStatus false = 1 :=
  c1_untracked_announce_stops ⟨fun _ => true, fun _ => .absent⟩ "/m" 0 60 0 0
    ⟨[("/m/y", ⟨none, 0, 60⟩)]⟩ "/m/x" (by decide) (by decide)

/-- Claim C3 counterexample: a directory-created notification for a path
that is already tracked does not keep the existing Instance registered:
the engine constructs a fresh Instance and it replaces the old one, whose
accepted lines (`["announce A\n"]`) are discarded — the registered
instance afterwards has the fresh unset contents. -/
theorem c3_dir_created_counterexample :
    handleEvent ⟨fun _ => true, fun _ => .absent⟩ "/m" 5 60 0 0
      ⟨[("/m/x", ⟨some [lineAnnA], 0, 60⟩)]⟩ "/m" "x" =
      .cont ⟨[("/m/x", initialState 5 (60 + 0 * 5 - 5/2) 0)]⟩ [] ∧
    (initialState 5 (60 + 0 * 5 - 5/2) 0).contents = none ∧
    (⟨some [lineAnnA], 0, 60⟩ : InstanceState).contents ≠ none :=
  ⟨rfl, rfl, by decide⟩

/-- Claim C3 (amended): on a directory notification under the monitored
root whose target path is currently a directory, the engine always
constructs a fresh Instance (with the per-event sampled timeout
`timeout + spread * 5 - 5/2` and fuzz) and registers it, replacing any
existing Instance tracked for that path: afterwards the mapping holds the
newly constructed instance whether or not the path was already tracked. -/
theorem c3_dir_created_replaces (fs : FS) (monitorDir : String)
    (now timeout spread fuzz : ℚ) (st : EngineState) (filename : String)
    (hd : fs.isDir (monitorDir ++ "/" ++ filename) = true) :
    handleEvent fs monitorDir now timeout spread fuzz st monitorDir filename =
      .cont ⟨dictInsert st.dirs (monitorDir ++ "/" ++ filename)
          (initInstance fs (monitorDir ++ "/" ++ filename) now
            (timeout + spread * 5 - 5/2) fuzz).1⟩
        (initInstance fs (monitorDir ++ "/" ++ filename) now
          (timeout + spread * 5 - 5/2) fuzz).2 ∧
    dictGet (dictInsert st.dirs (monitorDir ++ "/" ++ filename)
        (initInstance fs (monitorDir ++ "/" ++ filename) now
          (timeout + spread * 5 - 5/2) fuzz).1)
      (monitorDir ++ "/" ++ filename) =
      some (initInstance fs (monitorDir ++ "/" ++ filename) now
        (timeout + spread * 5 - 5/2) fuzz).1 := by
  refine ⟨?_, dictGet_dictInsert _ _ _⟩
  simp [handleEvent, hd]

/-- Claim C3 witness: the same replacement happens concretely for an
already-tracked directory. -/
theorem c3_dir_created_replaces_witness :
    handleEvent ⟨fun _ => true, fun _ => .readable []⟩ "/m" 5 60 0 0
      ⟨[("/m/x", ⟨some [lineAnnA], 0, 60⟩)]⟩ "/m" "x" =
      .cont ⟨dictInsert [("/m/x", ⟨some [lineAnnA], 0, 60⟩)] ("/m" ++ "/" ++ "x")
          (initInstance ⟨fun _ => true, fun _ => .readable []⟩ ("/m" ++ "/" ++ "x") 5
            (60 + 0 * 5 - 5/2) 0).1⟩
        (initInstance ⟨fun _ => true, fun _ => .readable []⟩ ("/m" ++ "/" ++ "x") 5
          (60 + 0 * 5 - 5/2) 0).2 :=
  (c3_dir_created_replaces ⟨fun _ => true, fun _ => .readable []⟩ "/m" 5 60 0 0
    ⟨[("/m/x", ⟨some [lineAnnA], 0, 60⟩)]⟩ "x" (by decide)).1
